import Mathlib

/-!
Shallow embedding of `src/common/functions.py` (vanDANA): boundary-condition
evaluators (`Inflow`, `Outflow`, `Temperature_balloon`), the waveform sampler,
the pressure null-space builder (`attach_nullspace`), the Courant denominator
(`DENO`), the truncating rounder (`round_decimals_down`) and the history
rotation (`update_variables`), together with theorems settling the frozen
claims about them.

Modelling conventions: Python floats are modelled as `ℚ` (or `ℝ` where a
square root is required), `scipy.interpolate.splev` with a fixed configured
spline is an abstract function `ℚ → ℚ`, a ufc cell context carries the cell
index and the (possibly negative) local facet index, a failed `assert` is
`Option.none`, and a raised Python exception is `Except.error`.
-/

/-- A ufc cell context as seen by `eval_cell`: the cell index and the local
facet index, which is negative for a non-boundary (interior) evaluation. -/
structure UFCCell where
  index : ℕ
  local_facet : ℤ
deriving DecidableEq

/-- The parameter dictionary shared by `Inflow` and `Outflow`:
`param["time"].t`, `param["period"]`, `param["nm"].cycle`, `param["Area"]`,
`param["Vsc"]`, `param["Tsc"]`, and `param["func"]` (the configured spline,
modelled as the abstract function `splev(·, func)`). -/
structure BCParam where
  t : ℚ
  period : ℚ
  nm : ℤ
  Area : ℚ
  Vsc : ℚ
  Tsc : ℚ
  func : ℚ → ℚ

/-- `Inflow.eval_cell` (src/common/functions.py lines 17-38).  `normal` models
`Cell(mesh, index).normal(local_facet)`; the `assert(local_facet >= 0)` is the
`none` branch.  On success the three output components are
`-n.x()*val, -n.y()*val, -n.z()*val` with
`val = (splev(t*Tsc - nm*period*Tsc, func)/Area)/Vsc`. -/
def Inflow.eval_cell (P : BCParam) (normal : ℕ → ℤ → Fin 3 → ℚ)
    (_x : Fin 3 → ℚ) (c : UFCCell) : Option (Fin 3 → ℚ) :=
  if 0 ≤ c.local_facet then
    let n := normal c.index c.local_facet
    let val := (P.func (P.t * P.Tsc - (P.nm : ℚ) * P.period * P.Tsc) / P.Area) / P.Vsc
    some (fun j => -(n j) * val)
  else
    none

/-- `Outflow.eval_cell` (src/common/functions.py lines 98-117).  The normal is
queried (and the facet assertion made) exactly as in `Inflow`, although the
value `splev(t*Tsc - nm*period*Tsc, func)*133.322/(1060*Vsc*Vsc)` does not use
it. -/
def Outflow.eval_cell (P : BCParam) (normal : ℕ → ℤ → Fin 3 → ℚ)
    (_x : Fin 3 → ℚ) (c : UFCCell) : Option ℚ :=
  if 0 ≤ c.local_facet then
    let _n := normal c.index c.local_facet
    some (P.func (P.t * P.Tsc - (P.nm : ℚ) * P.period * P.Tsc)
      * (133322 / 1000) / (1060 * P.Vsc * P.Vsc))
  else
    none

/-- Parameters read by `Temperature_balloon.eval_cell`: `param["time"].t`,
`param["Tsc"]` and `param["func"]`. -/
structure TBParam where
  t : ℚ
  Tsc : ℚ
  func : ℚ → ℚ

/-- `Temperature_balloon.eval_cell` (src/common/functions.py lines 129-144).
The facet assertion and the normal query are performed even though the value
`splev(t*Tsc, func)` depends only on time. -/
def Temperature_balloon.eval_cell (P : TBParam) (normal : ℕ → ℤ → Fin 3 → ℚ)
    (_x : Fin 3 → ℚ) (c : UFCCell) : Option ℚ :=
  if 0 ≤ c.local_facet then
    let _n := normal c.index c.local_facet
    some (P.func (P.t * P.Tsc))
  else
    none

/-- The waveform sampler used by `Inflow`/`Outflow` (src/common/functions.py
line 35 and line 116): `splev(t*Tsc - cycle*period*Tsc, func)` for a current
time `t` and cycle count `cycle`. -/
def sample (func : ℚ → ℚ) (Tsc period : ℚ) (t : ℚ) (cycle : ℤ) : ℚ :=
  func (t * Tsc - (cycle : ℚ) * period * Tsc)

/-- A Python value passed as the `decimals` argument of
`round_decimals_down`: either a Python `int` or a non-`int` number (the
`isinstance(decimals, int)` check distinguishes exactly these). -/
inductive PyNum where
  | int : ℤ → PyNum
  | nonint : ℚ → PyNum
deriving DecidableEq

/-- `round_decimals_down` (src/common/functions.py lines 227-237): rejects a
non-`int` decimals argument (`TypeError`) and a negative one (`ValueError`),
returns `math.floor(number)` for `decimals == 0`, and otherwise
`math.floor(number * 10**decimals) / 10**decimals`. -/
def round_decimals_down (number : ℚ) (decimals : PyNum) : Except String ℚ :=
  match decimals with
  | .nonint _ => .error "decimal places must be an integer"
  | .int d =>
    if d < 0 then .error "decimal places has to be 0 or more"
    else if d = 0 then .ok ((⌊number⌋ : ℤ) : ℚ)
    else .ok (((⌊number * 10 ^ d.toNat⌋ : ℤ) : ℚ) / 10 ^ d.toNat)

/-- One `a.assign(b)` step on an indexed family of field slots:
slot `dst` receives the current contents of slot `src`. -/
def assignStep {n : ℕ} {α : Type} (f : Fin n → α) (dst src : Fin n) : Fin n → α :=
  Function.update f dst (f src)

/-- Running a list of `.assign` statements in program order. -/
def applyAssigns {n : ℕ} {α : Type} (l : List (Fin n × Fin n)) (f : Fin n → α) :
    Fin n → α :=
  l.foldl (fun g pr => assignStep g pr.1 pr.2) f

/-- The `.assign` statements of `update_variables` for `u_` (lines 258-259),
as (destination, source) pairs in program order. -/
def uAssigns : List (Fin 3 × Fin 3) := [(2, 1), (1, 0)]

/-- The `.assign` statements of `update_variables` for `p_` (lines 260-261). -/
def pAssigns : List (Fin 3 × Fin 3) := [(2, 1), (1, 0)]

/-- The `.assign` statements of `update_variables` for `T_` (lines 263-265). -/
def tAssigns : List (Fin 4 × Fin 4) := [(3, 2), (2, 1), (1, 0)]

/-- `update_variables` (src/common/functions.py lines 256-265): the three
history buffers after executing all `.assign` statements in program order. -/
def update_variables {α : Type} (u_ p_ : Fin 3 → α) (T_ : Fin 4 → α) :
    (Fin 3 → α) × (Fin 3 → α) × (Fin 4 → α) :=
  (applyAssigns uAssigns u_, applyAssigns pAssigns p_, applyAssigns tAssigns T_)

/-- The ℓ2 norm `v.norm('l2')` of a vector with entries `v`. -/
noncomputable def l2norm {n : ℕ} (v : Fin n → ℝ) : ℝ :=
  Real.sqrt (∑ i, v i ^ 2)

/-- The vector built by `attach_nullspace` before normalization
(src/common/functions.py lines 156-157): `Vector(x_.vector())` copies the
reference vector's entries and `Q.dofmap().set(null_vec, 1.0)` then sets every
degree of freedom owned by `Q` to `1.0`. -/
def null_vec0 {n : ℕ} (x : Fin n → ℝ) (Q : Finset (Fin n)) : Fin n → ℝ :=
  fun i => if i ∈ Q then 1 else x i

/-- The null-space basis vector produced by `attach_nullspace`
(src/common/functions.py lines 153-163): the unnormalized vector scaled by
`1.0 / null_vec.norm('l2')`. -/
noncomputable def attach_nullspace {n : ℕ} (x : Fin n → ℝ) (Q : Finset (Fin n)) : Fin n → ℝ :=
  fun i => (1 / l2norm (null_vec0 x Q)) * null_vec0 x Q i

/-- `np.max` over a nonempty array indexed by `Fin n`. -/
noncomputable def npMax {n : ℕ} (hn : 0 < n) (v : Fin n → ℝ) : ℝ :=
  Finset.univ.sup' ⟨⟨0, hn⟩, Finset.mem_univ _⟩ v

/-- The process-local part of `DENO` (src/common/functions.py lines 171-182):
the loop over components `i` accumulates
`DN_local += np.max(np.abs(vertex_values_u / vertex_values_h_f_X))` and
`vertex_mag_u += np.square(vertex_values_u)` starting from zeros, and then
`NM_local = np.max(np.sqrt(vertex_mag_u) * vertex_values_h_f_X)`. -/
noncomputable def DENO_local (d nv : ℕ) (hnv : 0 < nv)
    (u : Fin d → Fin nv → ℝ) (h : Fin nv → ℝ) : ℝ × ℝ :=
  let res := (List.finRange d).foldl
    (fun (acc : ℝ × (Fin nv → ℝ)) i =>
      (acc.1 + npMax hnv (fun v => |u i v / h v|),
       fun v => acc.2 v + (u i v) ^ 2))
    (0, fun _ => 0)
  (res.1, npMax hnv (fun v => Real.sqrt (res.2 v) * h v))

/-- `DENO` (src/common/functions.py lines 169-187): each process `p` computes
its local pair and `Mpi.Max` reduces each scalar with a maximum over all
processes. -/
noncomputable def DENO (P d : ℕ) (hP : 0 < P) (nv : Fin P → ℕ)
    (hnv : ∀ p, 0 < nv p) (u : (p : Fin P) → Fin d → Fin (nv p) → ℝ)
    (h : (p : Fin P) → Fin (nv p) → ℝ) : ℝ × ℝ :=
  (npMax hP (fun p => (DENO_local d (nv p) (hnv p) (u p) (h p)).1),
   npMax hP (fun p => (DENO_local d (nv p) (hnv p) (u p) (h p)).2))

/-- C3: for every evaluation of the `Inflow` boundary expression at a cell
with local facet index `>= 0`, the output is a 3-component vector equal to
minus the facet's outward normal times
`(sample(t*Tsc - nm*period*Tsc) / Area) / Vsc`. -/
theorem inflow_eval_cell_formula (P : BCParam) (normal : ℕ → ℤ → Fin 3 → ℚ)
    (x : Fin 3 → ℚ) (c : UFCCell) (h : 0 ≤ c.local_facet) :
    Inflow.eval_cell P normal x c =
      some (fun j => -(normal c.index c.local_facet j) *
        ((P.func (P.t * P.Tsc - (P.nm : ℚ) * P.period * P.Tsc) / P.Area) / P.Vsc)) := by
  simp [Inflow.eval_cell, h]

/-- Witness for C3, using the spec's scenario: `Tsc = 1`, `period = 3`,
`Area = 2`, `Vsc = 5`, `t = 1`, `nm = 0`, a waveform sampling to `10`, and a
facet with outward normal `(1,0,0)`: the inflow value is `(-1, 0, 0)`. -/
theorem inflow_eval_cell_formula_witness :
    Inflow.eval_cell ⟨1, 3, 0, 2, 5, 1, fun _ => 10⟩ (fun _ _ => ![1, 0, 0])
      ![0, 0, 0] ⟨0, 0⟩ = some ![-1, 0, 0] := by
  rw [inflow_eval_cell_formula _ _ _ _ (by decide)]
  congr 1
  funext j
  fin_cases j <;> norm_num

/-- Counterexample to C4: the `Outflow` evaluator does assert
`local_facet >= 0` (src/common/functions.py line 104), so at a cell context
with local facet index `-1` (an interior entity) its evaluation fails instead
of succeeding. -/
theorem outflow_eval_cell_interior_counterexample :
    Outflow.eval_cell ⟨1, 3, 0, 2, 5, 1, fun _ => 10⟩ (fun _ _ => ![0, 0, 0])
      ![0, 0, 0] ⟨0, -1⟩ = none := by
  simp [Outflow.eval_cell]

/-- C4 (amended): the `Outflow` evaluator computes the scalar
`sample * 133.322 / (1060 * Vsc^2)`; its value never uses the facet normal
(the result is the same for any normal provider and evaluation point), but it
still asserts `local_facet >= 0`, so evaluation fails on a cell context whose
local facet index is negative. -/
theorem outflow_eval_cell_spec (P : BCParam) (n1 n2 : ℕ → ℤ → Fin 3 → ℚ)
    (x1 x2 : Fin 3 → ℚ) (c : UFCCell) :
    Outflow.eval_cell P n1 x1 c = Outflow.eval_cell P n2 x2 c ∧
    (0 ≤ c.local_facet →
      Outflow.eval_cell P n1 x1 c =
        some (P.func (P.t * P.Tsc - (P.nm : ℚ) * P.period * P.Tsc)
          * (133322 / 1000) / (1060 * P.Vsc * P.Vsc))) ∧
    (c.local_facet < 0 → Outflow.eval_cell P n1 x1 c = none) := by
  refine ⟨rfl, fun h => ?_, fun h => ?_⟩
  · simp [Outflow.eval_cell, h]
  · simp [Outflow.eval_cell, not_le.mpr h]

/-- Witness for C4's amended theorem at concrete inputs: a boundary facet
(`local_facet = 0`) succeeds with the formula's value, an interior context
(`local_facet = -1`) fails. -/
theorem outflow_eval_cell_spec_witness :
    ((0 : ℤ) ≤ 0 ∧
      Outflow.eval_cell ⟨1, 3, 0, 2, 5, 1, fun _ => 10⟩ (fun _ _ => ![1, 0, 0])
        ![0, 0, 0] ⟨0, 0⟩ = some (10 * (133322 / 1000) / (1060 * 5 * 5))) ∧
    ((-1 : ℤ) < 0 ∧
      Outflow.eval_cell ⟨1, 3, 0, 2, 5, 1, fun _ => 10⟩ (fun _ _ => ![1, 0, 0])
        ![1, 0, 0] ⟨0, -1⟩ = none) :=
  ⟨⟨le_refl 0,
    (outflow_eval_cell_spec ⟨1, 3, 0, 2, 5, 1, fun _ => 10⟩ (fun _ _ => ![1, 0, 0])
      (fun _ _ => ![1, 0, 0]) ![0, 0, 0] ![0, 0, 0] ⟨0, 0⟩).2.1 (by decide)⟩,
   ⟨by decide,
    (outflow_eval_cell_spec ⟨1, 3, 0, 2, 5, 1, fun _ => 10⟩ (fun _ _ => ![1, 0, 0])
      (fun _ _ => ![1, 0, 0]) ![1, 0, 0] ![1, 0, 0] ⟨0, -1⟩).2.2 (by decide)⟩⟩

/-- C10: `Temperature_balloon.eval_cell` asserts `local_facet >= 0`, so at
every cell context with a negative local facet index its evaluation fails
rather than returning a value; on a boundary facet the returned value is
`sample(t*Tsc)`, independent of the geometry (same for every normal provider
and evaluation point). -/
theorem temperature_balloon_eval_cell_facet (P : TBParam)
    (n1 n2 : ℕ → ℤ → Fin 3 → ℚ) (x1 x2 : Fin 3 → ℚ) (c : UFCCell) :
    (c.local_facet < 0 → Temperature_balloon.eval_cell P n1 x1 c = none) ∧
    (0 ≤ c.local_facet →
      Temperature_balloon.eval_cell P n1 x1 c = some (P.func (P.t * P.Tsc))) ∧
    Temperature_balloon.eval_cell P n1 x1 c =
      Temperature_balloon.eval_cell P n2 x2 c := by
  refine ⟨fun h => ?_, fun h => ?_, rfl⟩
  · simp [Temperature_balloon.eval_cell, not_le.mpr h]
  · simp [Temperature_balloon.eval_cell, h]

/-- Witness for C10 at concrete inputs: evaluation with `local_facet = -2`
fails, evaluation with `local_facet = 1` returns the time-only sample. -/
theorem temperature_balloon_eval_cell_facet_witness :
    ((-2 : ℤ) < 0 ∧
      Temperature_balloon.eval_cell ⟨2, 3, fun s => s + 1⟩ (fun _ _ => ![1, 0, 0])
        ![0, 0, 0] ⟨5, -2⟩ = none) ∧
    ((0 : ℤ) ≤ 1 ∧
      Temperature_balloon.eval_cell ⟨2, 3, fun s => s + 1⟩ (fun _ _ => ![1, 0, 0])
        ![0, 0, 0] ⟨5, 1⟩ = some ((2 * 3 : ℚ) + 1)) :=
  ⟨⟨by decide,
    (temperature_balloon_eval_cell_facet ⟨2, 3, fun s => s + 1⟩
      (fun _ _ => ![1, 0, 0]) (fun _ _ => ![1, 0, 0]) ![0, 0, 0] ![0, 0, 0]
      ⟨5, -2⟩).1 (by decide)⟩,
   ⟨by decide,
    (temperature_balloon_eval_cell_facet ⟨2, 3, fun s => s + 1⟩
      (fun _ _ => ![1, 0, 0]) (fun _ _ => ![1, 0, 0]) ![0, 0, 0] ![0, 0, 0]
      ⟨5, 1⟩).2.1 (by decide)⟩⟩

/-- Counterexample to C5: for the periodic sawtooth waveform
`f x = x - (1/2) * floor(2x)` (period `period*Tsc = 1/2` in spline argument,
so the sampled signal repeats once per `period` of unscaled time), with
`Tsc = 1/2`, `period = 1`, `t = 0`, `k = 1`, sampling at time
`t + k*period*Tsc` with cycle count `0` gives `1/4`, while sampling at time
`t` with cycle count `k` gives `0`. -/
theorem sample_shift_cycle_counterexample :
    sample (fun s => s - (1 / 2) * ((⌊2 * s⌋ : ℤ) : ℚ)) (1 / 2) 1
        (0 + ((1 : ℤ) : ℚ) * 1 * (1 / 2)) 0 ≠
      sample (fun s => s - (1 / 2) * ((⌊2 * s⌋ : ℤ) : ℚ)) (1 / 2) 1 0 1 := by
  norm_num [sample]

/-- C5 (amended): for every waveform, every time `t` and every integer cycle
count `k`, sampling the waveform at time `t + k*period` with cycle count `k`
yields the same value as sampling it at time `t` with cycle count `0` (the
spline argument is re-synchronized once per elapsed period). -/
theorem sample_periodicity (func : ℚ → ℚ) (Tsc period t : ℚ) (k : ℤ) :
    sample func Tsc period (t + (k : ℚ) * period) k = sample func Tsc period t 0 := by
  unfold sample
  congr 1
  ring

/-- C6: for every `x >= 0`, `round_decimals_down x 5` is computed as
`floor(x * 10^5) / 10^5`; it is at most `x` and differs from `x` by strictly
less than `10^-5`; and a 0-decimal request returns `floor x` directly. -/
theorem round_decimals_down_five (x : ℚ) (hx : 0 ≤ x) :
    round_decimals_down x (.int 5) =
      .ok (((⌊x * 10 ^ 5⌋ : ℤ) : ℚ) / 10 ^ 5) ∧
    ((⌊x * 10 ^ 5⌋ : ℤ) : ℚ) / 10 ^ 5 ≤ x ∧
    x - ((⌊x * 10 ^ 5⌋ : ℤ) : ℚ) / 10 ^ 5 < 1 / 10 ^ 5 ∧
    round_decimals_down x (.int 0) = .ok ((⌊x⌋ : ℤ) : ℚ) := by
  have h5 : (5 : ℤ).toNat = 5 := rfl
  refine ⟨by norm_num [round_decimals_down, h5], ?_, ?_,
    by norm_num [round_decimals_down]⟩
  · rw [div_le_iff₀ (by norm_num : (0 : ℚ) < 10 ^ 5)]
    exact Int.floor_le _
  · rw [sub_lt_iff_lt_add, div_add_div_same, lt_div_iff₀ (by norm_num : (0 : ℚ) < 10 ^ 5)]
    calc x * 10 ^ 5 < ((⌊x * 10 ^ 5⌋ : ℤ) : ℚ) + 1 := Int.lt_floor_add_one _
    _ = 1 + ((⌊x * 10 ^ 5⌋ : ℤ) : ℚ) := by ring

/-- Witness for C6 at `x = 3/2`. -/
theorem round_decimals_down_five_witness :
    (0 : ℚ) ≤ 3 / 2 ∧
    (round_decimals_down (3 / 2) (.int 5) =
       .ok (((⌊(3 / 2 : ℚ) * 10 ^ 5⌋ : ℤ) : ℚ) / 10 ^ 5) ∧
     ((⌊(3 / 2 : ℚ) * 10 ^ 5⌋ : ℤ) : ℚ) / 10 ^ 5 ≤ 3 / 2 ∧
     (3 / 2 : ℚ) - ((⌊(3 / 2 : ℚ) * 10 ^ 5⌋ : ℤ) : ℚ) / 10 ^ 5 < 1 / 10 ^ 5 ∧
     round_decimals_down (3 / 2) (.int 0) = .ok ((⌊(3 / 2 : ℚ)⌋ : ℤ) : ℚ)) :=
  ⟨by norm_num, round_decimals_down_five (3 / 2) (by norm_num)⟩

/-- C9: `round_decimals_down` fails if and only if the decimal count is not an
integer or is a negative integer: a non-`int` argument yields the `TypeError`
message, a negative integer yields the `ValueError` message, and every
non-negative integer returns normally. -/
theorem round_decimals_down_error_iff (x : ℚ) (q : ℚ) (k : ℤ) :
    round_decimals_down x (.nonint q) = .error "decimal places must be an integer" ∧
    (k < 0 →
      round_decimals_down x (.int k) = .error "decimal places has to be 0 or more") ∧
    (0 ≤ k → ∃ r : ℚ, round_decimals_down x (.int k) = .ok r) := by
  refine ⟨rfl, fun h => ?_, fun h => ?_⟩
  · simp [round_decimals_down, h]
  · by_cases h0 : k = 0
    · refine ⟨((⌊x⌋ : ℤ) : ℚ), ?_⟩
      simp [round_decimals_down, h0]
    · refine ⟨((⌊x * 10 ^ k.toNat⌋ : ℤ) : ℚ) / 10 ^ k.toNat, ?_⟩
      simp [round_decimals_down, h0, not_lt.mpr h]

/-- Witness for C9 at concrete inputs: a non-integer count `1/2` fails, the
negative count `-1` fails, and the count `2` returns normally. -/
theorem round_decimals_down_error_iff_witness :
    round_decimals_down 1 (.nonint (1 / 2)) =
      .error "decimal places must be an integer" ∧
    ((-1 : ℤ) < 0 ∧
      round_decimals_down 1 (.int (-1)) =
        .error "decimal places has to be 0 or more") ∧
    ((0 : ℤ) ≤ 2 ∧ ∃ r : ℚ, round_decimals_down 1 (.int 2) = .ok r) :=
  ⟨(round_decimals_down_error_iff 1 (1 / 2) (-1)).1,
   ⟨by decide, (round_decimals_down_error_iff 1 (1 / 2) (-1)).2.1 (by decide)⟩,
   ⟨by decide, (round_decimals_down_error_iff 1 (1 / 2) 2).2.2 (by decide)⟩⟩

/-- C7: one `update_variables` rotation leaves slot 0 of each buffer
unchanged and makes every slot `k ≥ 1` hold the pre-rotation contents of slot
`k-1`; the recorded `.assign` statements have strictly decreasing destination
indices, never assign to slot 0, and each copies from the slot directly below
its destination; velocity and pressure have 3 slots and temperature 4. -/
theorem update_variables_rotation {α : Type} (u_ p_ : Fin 3 → α) (T_ : Fin 4 → α) :
    ((update_variables u_ p_ T_).1 0 = u_ 0 ∧
      ∀ k : Fin 3, k ≠ 0 → (update_variables u_ p_ T_).1 k = u_ (k - 1)) ∧
    ((update_variables u_ p_ T_).2.1 0 = p_ 0 ∧
      ∀ k : Fin 3, k ≠ 0 → (update_variables u_ p_ T_).2.1 k = p_ (k - 1)) ∧
    ((update_variables u_ p_ T_).2.2 0 = T_ 0 ∧
      ∀ k : Fin 4, k ≠ 0 → (update_variables u_ p_ T_).2.2 k = T_ (k - 1)) ∧
    (List.Chain' (fun a b : ℕ => b < a) ((uAssigns.map Prod.fst).map Fin.val) ∧
      List.Chain' (fun a b : ℕ => b < a) ((pAssigns.map Prod.fst).map Fin.val) ∧
      List.Chain' (fun a b : ℕ => b < a) ((tAssigns.map Prod.fst).map Fin.val)) ∧
    ((0 : Fin 3) ∉ uAssigns.map Prod.fst ∧ (0 : Fin 3) ∉ pAssigns.map Prod.fst ∧
      (0 : Fin 4) ∉ tAssigns.map Prod.fst) ∧
    ((∀ pr ∈ uAssigns, (pr.2 : ℕ) + 1 = (pr.1 : ℕ)) ∧
      (∀ pr ∈ pAssigns, (pr.2 : ℕ) + 1 = (pr.1 : ℕ)) ∧
      (∀ pr ∈ tAssigns, (pr.2 : ℕ) + 1 = (pr.1 : ℕ))) := by
  refine ⟨⟨?_, ?_⟩, ⟨?_, ?_⟩, ⟨?_, ?_⟩,
    ⟨by simp [uAssigns, List.chain'_cons],
      by simp [pAssigns, List.chain'_cons],
      by simp [tAssigns, List.chain'_cons]; decide⟩, by decide, by decide⟩
  · simp [update_variables, applyAssigns, uAssigns, assignStep, Function.update]
  · intro k hk
    fin_cases k
    · exact absurd rfl hk
    · simp [update_variables, applyAssigns, uAssigns, assignStep, Function.update]
    · simp [update_variables, applyAssigns, uAssigns, assignStep, Function.update]
  · simp [update_variables, applyAssigns, pAssigns, assignStep, Function.update]
  · intro k hk
    fin_cases k
    · exact absurd rfl hk
    · simp [update_variables, applyAssigns, pAssigns, assignStep, Function.update]
    · simp [update_variables, applyAssigns, pAssigns, assignStep, Function.update]
  · simp [update_variables, applyAssigns, tAssigns, assignStep, Function.update]
  · intro k hk
    fin_cases k
    · exact absurd rfl hk
    · simp [update_variables, applyAssigns, tAssigns, assignStep, Function.update]
    · simp [update_variables, applyAssigns, tAssigns, assignStep, Function.update]
    · simp [update_variables, applyAssigns, tAssigns, assignStep, Function.update]

/-- Witness for C7 on concrete natural-number buffers. -/
theorem update_variables_rotation_witness :
    ((1 : Fin 3) ≠ 0 ∧
      (update_variables ![10, 11, 12] ![20, 21, 22] ![30, 31, 32, 33]).1 1 =
        (![10, 11, 12] : Fin 3 → ℕ) (1 - 1)) ∧
    ((3 : Fin 4) ≠ 0 ∧
      (update_variables ![10, 11, 12] ![20, 21, 22] ![30, 31, 32, 33]).2.2 3 =
        (![30, 31, 32, 33] : Fin 4 → ℕ) (3 - 1)) :=
  ⟨⟨by decide,
    (update_variables_rotation ![10, 11, 12] ![20, 21, 22] ![30, 31, 32, 33]).1.2
      1 (by decide)⟩,
   ⟨by decide,
    (update_variables_rotation ![10, 11, 12] ![20, 21, 22] ![30, 31, 32, 33]).2.2.1.2
      3 (by decide)⟩⟩

/-- Counterexample to C8: on the 3-slot buffers `[0,1,2]` and the 4-slot
buffer `[0,1,2,3]`, applying `update_variables` twice with no new slot-0
write does not yield the same contents as applying it once (once gives
`u = [0,0,1]`, twice gives `u = [0,0,0]`). -/
theorem update_variables_not_idempotent :
    update_variables
        (update_variables ![0, 1, 2] ![0, 1, 2] (![0, 1, 2, 3] : Fin 4 → ℕ)).1
        (update_variables ![0, 1, 2] ![0, 1, 2] (![0, 1, 2, 3] : Fin 4 → ℕ)).2.1
        (update_variables ![0, 1, 2] ![0, 1, 2] (![0, 1, 2, 3] : Fin 4 → ℕ)).2.2 ≠
      update_variables ![0, 1, 2] ![0, 1, 2] (![0, 1, 2, 3] : Fin 4 → ℕ) := by
  decide

/-- C8 (amended): `update_variables` is not idempotent; applying it twice with
no new slot-0 write shifts by two generations, leaving slots 0 and 1 equal to
the original slot 0 and slot `k` equal to the original slot `k-2` for
`k ≥ 2`, in both the 3-slot and the 4-slot buffers. -/
theorem update_variables_twice {α : Type} (u_ p_ : Fin 3 → α) (T_ : Fin 4 → α) :
    update_variables (update_variables u_ p_ T_).1 (update_variables u_ p_ T_).2.1
        (update_variables u_ p_ T_).2.2 =
      (![u_ 0, u_ 0, u_ 0], ![p_ 0, p_ 0, p_ 0], ![T_ 0, T_ 0, T_ 0, T_ 1]) := by
  refine Prod.ext ?_ (Prod.ext ?_ ?_) <;> funext k <;> fin_cases k <;>
    simp [update_variables, applyAssigns, uAssigns, pAssigns, tAssigns,
      assignStep, Function.update]

/-- Scaling a vector scales its ℓ2 norm by the absolute value of the factor. -/
theorem l2norm_smul {n : ℕ} (c : ℝ) (v : Fin n → ℝ) :
    l2norm (fun i => c * v i) = |c| * l2norm v := by
  unfold l2norm
  rw [← Real.sqrt_sq_eq_abs, ← Real.sqrt_mul (sq_nonneg c)]
  congr 1
  rw [Finset.mul_sum]
  exact Finset.sum_congr rfl fun i _ => by ring

/-- Counterexample to C1: with reference vector `(5, 3)` and pressure dofs
`{0}`, the built null vector is `(1, 3)` before normalization (the copy of the
reference vector is not zeroed), so the degree of freedom `1`, not owned by
the pressure space, carries the nonzero value `3 / sqrt 10` instead of `0`. -/
theorem attach_nullspace_counterexample :
    (1 : Fin 2) ∉ ({0} : Finset (Fin 2)) ∧
    attach_nullspace ![5, 3] ({0} : Finset (Fin 2)) 1 ≠ 0 := by
  have hv0 : null_vec0 (![5, 3] : Fin 2 → ℝ) ({0} : Finset (Fin 2)) = ![1, 3] := by
    funext i
    fin_cases i <;> simp [null_vec0]
  refine ⟨by decide, ?_⟩
  unfold attach_nullspace
  rw [hv0]
  have hnorm : l2norm (![1, 3] : Fin 2 → ℝ) = Real.sqrt 10 := by
    unfold l2norm
    norm_num [Fin.sum_univ_two]
  rw [hnorm]
  have h10 : (0 : ℝ) < Real.sqrt 10 := Real.sqrt_pos.mpr (by norm_num)
  have h3 : (![1, 3] : Fin 2 → ℝ) 1 = 3 := by norm_num
  rw [h3]
  exact mul_ne_zero (one_div_ne_zero (ne_of_gt h10)) (by norm_num)

/-- C1 (amended): whenever the pre-normalization ℓ2 norm is nonzero, the
null-space vector built by `attach_nullspace` has the uniform value
`1/norm` on every degree of freedom owned by the pressure space, retains the
reference vector's entry divided by the same norm on every degree of freedom
not owned by it, and has ℓ2 norm `1`. -/
theorem attach_nullspace_spec {n : ℕ} (x : Fin n → ℝ) (Q : Finset (Fin n))
    (h : l2norm (null_vec0 x Q) ≠ 0) :
    (∀ i ∈ Q, attach_nullspace x Q i = 1 / l2norm (null_vec0 x Q)) ∧
    (∀ i ∉ Q, attach_nullspace x Q i = x i / l2norm (null_vec0 x Q)) ∧
    l2norm (attach_nullspace x Q) = 1 := by
  have hnn : 0 ≤ l2norm (null_vec0 x Q) := Real.sqrt_nonneg _
  have hpos : 0 < l2norm (null_vec0 x Q) := lt_of_le_of_ne hnn (Ne.symm h)
  refine ⟨fun i hi => ?_, fun i hi => ?_, ?_⟩
  · unfold attach_nullspace null_vec0
    rw [if_pos hi]
    ring
  · unfold attach_nullspace null_vec0
    rw [if_neg hi]
    ring
  · have hfun : attach_nullspace x Q =
        fun i => (1 / l2norm (null_vec0 x Q)) * null_vec0 x Q i := rfl
    rw [hfun, l2norm_smul, abs_of_pos (by positivity), one_div,
      inv_mul_cancel₀ h]

/-- Witness for C1's amended theorem: one pressure dof over the zero
reference vector, where the built vector is `(1)` with norm `1`. -/
theorem attach_nullspace_spec_witness :
    l2norm (null_vec0 (![0] : Fin 1 → ℝ) {0}) ≠ 0 ∧
    ((∀ i ∈ ({0} : Finset (Fin 1)),
        attach_nullspace ![0] {0} i = 1 / l2norm (null_vec0 (![0] : Fin 1 → ℝ) {0})) ∧
      (∀ i ∉ ({0} : Finset (Fin 1)),
        attach_nullspace ![0] {0} i =
          (![0] : Fin 1 → ℝ) i / l2norm (null_vec0 (![0] : Fin 1 → ℝ) {0})) ∧
      l2norm (attach_nullspace (![0] : Fin 1 → ℝ) {0}) = 1) := by
  have hone : null_vec0 (![0] : Fin 1 → ℝ) {0} = fun _ => 1 := by
    funext i
    fin_cases i
    simp [null_vec0]
  have h : l2norm (null_vec0 (![0] : Fin 1 → ℝ) {0}) ≠ 0 := by
    rw [hone]
    unfold l2norm
    norm_num [Fin.sum_univ_one]
  exact ⟨h, attach_nullspace_spec ![0] {0} h⟩

/-- The accumulation loop of `DENO` as a pair: folding
`(acc1 + A i, acc2 + B i)` over a list of components adds the list sums of
`A` and of `B` (pointwise) to the starting accumulators. -/
theorem foldl_pair_sum {nv : ℕ} {d : ℕ} (A : Fin d → ℝ) (B : Fin d → Fin nv → ℝ) :
    ∀ (l : List (Fin d)) (a0 : ℝ) (b0 : Fin nv → ℝ),
      l.foldl (fun (acc : ℝ × (Fin nv → ℝ)) i =>
          (acc.1 + A i, fun v => acc.2 v + B i v)) (a0, b0) =
        (a0 + (l.map A).sum, fun v => b0 v + ((l.map fun i => B i v).sum)) := by
  intro l
  induction l with
  | nil =>
    intro a0 b0
    refine Prod.ext (by simp) ?_
    funext v
    simp
  | cons i l ih =>
    intro a0 b0
    simp only [List.foldl_cons, List.map_cons, List.sum_cons]
    rw [ih]
    refine Prod.ext (by simp [add_assoc]) ?_
    funext v
    simp [add_assoc]

/-- The process-local pair of `DENO` in closed form: `DN_local` is the sum
over components of the vertex maxima of `|u_i / h|`, and `NM_local` is the
vertex maximum of `sqrt(sum_i u_i^2) * h`. -/
theorem DENO_local_eq (d nv : ℕ) (hnv : 0 < nv)
    (u : Fin d → Fin nv → ℝ) (h : Fin nv → ℝ) :
    DENO_local d nv hnv u h =
      (∑ i, npMax hnv (fun v => |u i v / h v|),
       npMax hnv (fun v => Real.sqrt (∑ i, u i v ^ 2) * h v)) := by
  unfold DENO_local
  rw [foldl_pair_sum (fun i => npMax hnv (fun v => |u i v / h v|))
    (fun i v => u i v ^ 2) (List.finRange d) 0 (fun _ => 0)]
  refine Prod.ext ?_ ?_
  · simp [Fin.sum_univ_def]
  · simp only
    congr 1
    funext v
    congr 1
    simp [Fin.sum_univ_def]

/-- C2: `DENO`'s Courant estimate is the cross-process maximum of the sum
over spatial components of the process-local vertex maximum of
`|u_i| / h(vertex)`, and its flow-scale estimate is the cross-process maximum
of the process-local vertex maximum of `sqrt(sum_i u_i^2) * h(vertex)`; both
global reductions are maxima over processes, never sums. -/
theorem DENO_spec (P d : ℕ) (hP : 0 < P) (nv : Fin P → ℕ) (hnv : ∀ p, 0 < nv p)
    (u : (p : Fin P) → Fin d → Fin (nv p) → ℝ) (h : (p : Fin P) → Fin (nv p) → ℝ)
    (hpos : ∀ p v, 0 < h p v) :
    (DENO P d hP nv hnv u h).1 =
      npMax hP (fun p => ∑ i, npMax (hnv p) (fun v => |u p i v| / h p v)) ∧
    (DENO P d hP nv hnv u h).2 =
      npMax hP (fun p => npMax (hnv p)
        (fun v => Real.sqrt (∑ i, u p i v ^ 2) * h p v)) := by
  constructor
  · unfold DENO
    simp only
    congr 1
    funext p
    rw [DENO_local_eq]
    simp only
    refine Finset.sum_congr rfl fun i _ => ?_
    congr 1
    funext v
    rw [abs_div, abs_of_pos (hpos p v)]
  · unfold DENO
    simp only
    congr 1
    funext p
    rw [DENO_local_eq]

/-- Witness for C2 on one process, one component, one vertex with `u = 2` and
`h = 1`. -/
theorem DENO_spec_witness :
    (0 < 1 ∧ (∀ p : Fin 1, 0 < 1) ∧
      (∀ (p : Fin 1) (v : Fin 1), (0 : ℝ) < (fun _ _ => (1 : ℝ)) p v)) ∧
    ((DENO 1 1 one_pos (fun _ => 1) (fun _ => one_pos)
        (fun _ _ _ => (2 : ℝ)) (fun _ _ => (1 : ℝ))).1 =
      npMax one_pos (fun p => ∑ i : Fin 1,
        npMax one_pos (fun v => |(2 : ℝ)| / 1)) ∧
     (DENO 1 1 one_pos (fun _ => 1) (fun _ => one_pos)
        (fun _ _ _ => (2 : ℝ)) (fun _ _ => (1 : ℝ))).2 =
      npMax one_pos (fun p => npMax one_pos
        (fun v => Real.sqrt (∑ i : Fin 1, (2 : ℝ) ^ 2) * 1))) :=
  ⟨⟨one_pos, fun _ => one_pos, fun _ _ => one_pos⟩,
    DENO_spec 1 1 one_pos (fun _ => 1) (fun _ => one_pos)
      (fun _ _ _ => (2 : ℝ)) (fun _ _ => (1 : ℝ)) (fun _ _ => one_pos)⟩
